import Mathlib

/-!
Verification of the BUT_Telepresence streaming control plane and telemetry
plane against its natural-language specification.

The definitions below are a shallow embedding of the C++ sources:

* `src/streaming_driver/main.cpp` — server supervisor, hot-swap decision,
  exponential backoff, config-version cell, control loop;
* `src/streaming_driver/include/logging.h` — per-frame RTP header metadata
  stamping (identity handoff callbacks);
* `src/VR_App/src/ntp_timer.cpp` — NTP synchronizer (sample rejection,
  best-sample selection, EMA smoothing, fallback switching);
* `src/VR_App/src/rest_client.cpp` — REST update call;
* `src/VR_App/src/camera_stats.cpp` — rolling-history averaging;
* `src/VR_App/include/ros_network_gateway_client.h` — dotted-path JSON
  field access with array unwrapping.

Machine integers are modelled as `Nat`/`Int` with explicit `% 2^w` wrap
where the C++ unsigned arithmetic can wrap.  IEEE doubles (the NTP EMA and
the timestamp averages) are modelled by exact rational arithmetic; the
claims under verification concern the formulas, not rounding.  Mutex
protected critical sections are modelled as atomic steps, which is what the
lock discipline of the source guarantees.
-/

/-! ## Machine integer helpers -/

/-- Wrap-around subtraction of two `uint64_t` values (both assumed `< 2^64`),
as performed by C++ unsigned arithmetic. -/
def u64sub (a b : Nat) : Nat := (a + 2 ^ 64 - b) % 2 ^ 64

/-- Interpretation of a `uint64_t` bit pattern as `int64_t` (two's complement). -/
def toInt64 (u : Nat) : Int := if u < 2 ^ 63 then (u : Int) else (u : Int) - 2 ^ 64

theorem u64sub_of_le {a b : Nat} (hba : b ≤ a) (ha : a < 2 ^ 64) :
    u64sub a b = a - b := by
  unfold u64sub
  omega

/-! ## Streaming driver: configuration model

Embedding of `StreamingConfig`, `Codec` and `VideoMode` from
`src/streaming_driver/include/pipelines.h`. -/

inductive Codec where
  | JPEG
  | VP8
  | VP9
  | H264
  | H265
deriving DecidableEq, Repr

inductive VideoMode where
  | STEREO
  | MONO
  | PANORAMIC
deriving DecidableEq, Repr

structure StreamingConfig where
  ip : String
  portLeft : Int
  portRight : Int
  codec : Codec
  encodingQuality : Int
  bitrate : Int
  horizontalResolution : Int
  verticalResolution : Int
  videoMode : VideoMode
  fps : Int
deriving DecidableEq, Repr

/-- Embedding of `CanUpdateDynamically` from `src/streaming_driver/main.cpp`
(lines 120–135): a change is hot-swappable iff none of the structural fields
(resolution, fps, codec, video mode, ip, ports) differs. -/
def CanUpdateDynamically (oldCfg newCfg : StreamingConfig) : Bool :=
  let structuralChange :=
    oldCfg.horizontalResolution ≠ newCfg.horizontalResolution ∨
    oldCfg.verticalResolution ≠ newCfg.verticalResolution ∨
    oldCfg.fps ≠ newCfg.fps ∨
    oldCfg.codec ≠ newCfg.codec ∨
    oldCfg.videoMode ≠ newCfg.videoMode ∨
    oldCfg.ip ≠ newCfg.ip ∨
    oldCfg.portLeft ≠ newCfg.portLeft ∨
    oldCfg.portRight ≠ newCfg.portRight
  ¬ structuralChange

/-- Effect of `UpdatePipelineProperties` (main.cpp lines 137–179) on the
running pipeline: which GStreamer element property is set.  The element is
looked up by the name `"encoder"`; JPEG sets its `quality`, H264/H265 set
its `bitrate`; any other codec makes the function fail (returns `false`). -/
inductive PropertyUpdate where
  | setProp (element : String) (prop : String) (value : Int)
deriving DecidableEq, Repr

/-- Embedding of the `switch (newCfg.codec)` body of `UpdatePipelineProperties`:
`some u` is a successful dynamic update performing `u`; `none` is the
`success = false` path (unsupported codec). -/
def updatePipelineProperties (newCfg : StreamingConfig) : Option PropertyUpdate :=
  match newCfg.codec with
  | Codec.JPEG => some (PropertyUpdate.setProp "encoder" "quality" newCfg.encodingQuality)
  | Codec.H264 => some (PropertyUpdate.setProp "encoder" "bitrate" newCfg.bitrate)
  | Codec.H265 => some (PropertyUpdate.setProp "encoder" "bitrate" newCfg.bitrate)
  | _ => none

/-- Result of one config-version observation by the monitor loop of
`RunCameraStreamingPipelineDynamic` (main.cpp lines 285–310): the pipeline
handle kept in use, the cached current config, whether a rebuild was
scheduled, and the property update applied (if any). -/
structure VersionChangeResult where
  pipeline : Nat
  currentConfig : StreamingConfig
  rebuild : Bool
  applied : Option PropertyUpdate
deriving DecidableEq, Repr

/-- Embedding of the version-change branch of the monitor loop (main.cpp
lines 285–310): if `CanUpdateDynamically` holds and the property update
succeeds, the same pipeline handle stays in use, the cached config is
replaced and no rebuild happens; otherwise a rebuild is scheduled. -/
def onVersionChange (pipeline : Nat) (currentConfig newCfg : StreamingConfig) :
    VersionChangeResult :=
  if CanUpdateDynamically currentConfig newCfg then
    match updatePipelineProperties newCfg with
    | some u => ⟨pipeline, newCfg, false, some u⟩
    | none => ⟨pipeline, currentConfig, true, none⟩
  else
    ⟨pipeline, currentConfig, true, none⟩

/-- Embedding of the codec dispatch of `BuildCameraPipeline` (main.cpp lines
81–95): building a pipeline for VP8/VP9 throws (`none`); the supported codecs
yield a pipeline description. -/
def buildCameraPipelineSupported (codec : Codec) : Bool :=
  match codec with
  | Codec.JPEG => true
  | Codec.H264 => true
  | Codec.H265 => true
  | Codec.VP8 => false
  | Codec.VP9 => false

/-! ## Streaming driver: exponential backoff

Embedding of the backoff expression that appears (three times verbatim) in
`RunCameraStreamingPipelineDynamic` (main.cpp lines 229–234, 249–253 and
329–335), with `MAX_CONSECUTIVE_FAILURES = 5`:

`consecutive_failures < 5 ? (200 * (1 << (consecutive_failures - 1))) : 10000`.

The slow-retry branch at the top of the worker loop (lines 194–205) sleeps
10 s whenever `consecutive_failures >= 5`, i.e. the same 10 000 ms. -/

def MAX_CONSECUTIVE_FAILURES : Nat := 5

/-- Backoff wait in milliseconds after `consecutiveFailures` consecutive
failures (main.cpp backoff expression). -/
def backoffMs (consecutiveFailures : Nat) : Nat :=
  if consecutiveFailures < MAX_CONSECUTIVE_FAILURES then
    200 * 2 ^ (consecutiveFailures - 1)
  else
    10000

/-! ## Streaming driver: worker iteration decisions

One iteration of the supervisor worker loop `RunCameraStreamingPipelineDynamic`
(main.cpp lines 192–224) decides, from the consecutive-failure counter, the
observed `(config, version)` snapshot and the worker's sensor id, whether to
idle or to build a pipeline.  `RunPanoramicPipeline` (main.cpp lines 435–449)
does the same for the single panoramic worker. -/

inductive WorkerAction where
  | slowRetrySleep
  | idleWaitForConfig
  | monoSleep
  | build
deriving DecidableEq, Repr

/-- Decision taken by one iteration of `RunCameraStreamingPipelineDynamic`
before any pipeline is built (main.cpp lines 192–224), in source order:
the `consecutive_failures >= MAX_CONSECUTIVE_FAILURES` slow-retry check,
the `seen_version == 0` idle check, then the MONO/sensor-1 check. -/
def workerIterationAction (consecutiveFailures : Nat) (version : Nat)
    (cfg : StreamingConfig) (sensorId : Nat) : WorkerAction :=
  if MAX_CONSECUTIVE_FAILURES ≤ consecutiveFailures then
    WorkerAction.slowRetrySleep
  else if version = 0 then
    WorkerAction.idleWaitForConfig
  else if cfg.videoMode = VideoMode.MONO ∧ sensorId = 1 then
    WorkerAction.monoSleep
  else
    WorkerAction.build

/-- Decision taken by one iteration of `RunPanoramicPipeline` before any
pipeline is built (main.cpp lines 435–449): idle at version 0, idle when
the mode is not PANORAMIC, otherwise build. -/
def panoramicIterationAction (version : Nat) (cfg : StreamingConfig) : WorkerAction :=
  if version = 0 then
    WorkerAction.idleWaitForConfig
  else if cfg.videoMode ≠ VideoMode.PANORAMIC then
    WorkerAction.idleWaitForConfig
  else
    WorkerAction.build

/-! ## Streaming driver: config-version cell and control loop

The cell `(desired_cfg, cfg_version)` (main.cpp lines 26–28) is written only
inside the `cfg_mutex` critical section of `ControlLoop` (lines 699–705) and
read by the workers inside the same mutex (lines 207–213 and 287–293).  Each
critical section is therefore one atomic step, and the observable cell
states around one `update` command are exactly the pre-state and the
post-state. -/

structure ConfigCell where
  cfg : StreamingConfig
  version : Nat
deriving DecidableEq, Repr

inductive ControlCmd where
  | update (cfg : StreamingConfig)
  | stop
deriving DecidableEq, Repr

/-- Embedding of the `ControlLoop` dispatch (main.cpp lines 699–710) on the
shared state `(cell, stop_requested)`: `update` replaces `desired_cfg` and
increments `cfg_version` in one critical section; `stop` sets the stop flag. -/
def controlLoopStep : ConfigCell × Bool → ControlCmd → ConfigCell × Bool
  | (cell, stopReq), ControlCmd.update s => (⟨s, cell.version + 1⟩, stopReq)
  | (cell, _), ControlCmd.stop => (cell, true)

/-- Reading the cell under `cfg_mutex` (main.cpp lines 207–213): readers
clone the config and load the version in one critical section. -/
def readConfigCell (cell : ConfigCell) : StreamingConfig × Nat :=
  (cell.cfg, cell.version)

/-- Observable cell states around the processing of one command: the state
before the writer's critical section and the state after it.  Readers also
take `cfg_mutex`, so every read returns one of these two states. -/
def cellObservations (cell : ConfigCell) (cmd : ControlCmd) : List ConfigCell :=
  [cell, (controlLoopStep (cell, false) cmd).1]

/-! ## RTP header metadata stamping

Embedding of `src/streaming_driver/include/logging.h`: the per-pipeline
state (`PipelineState`), the per-pipeline timestamp vector
(`timestampsStreaming[pipelineName]`), and the identity handoff callback
`OnIdentityHandoffCameraStreaming` together with `AddRtpHeaderMetadata`.
Timestamps are microsecond values of `GetCurrentUs` (assumed `< 2^64`); the
stage-duration subtractions wrap like the `uint64_t` arithmetic of the
source. -/

/-- Embedding of `PipelineState` (logging.h lines 40–61).  `frameId` is a
`uint16_t`, so `frameId++` wraps modulo `2^16`. -/
structure PipelineState where
  frameId : Nat
  frameIdIncremented : Bool
  lastCameraFrameTime : Nat
  cameraFrameDuration : Nat
deriving DecidableEq, Repr

/-- Initial value of a `PipelineState` (all fields zero-initialised, as for a
fresh entry of the `pipelineStates` map). -/
def PipelineState.init : PipelineState := ⟨0, false, 0, 0⟩

/-- Embedding of `PipelineState::getAndIncrementFrameId` (logging.h lines
46–49): returns the current id and the updated state. -/
def PipelineState.getAndIncrementFrameId (s : PipelineState) : Nat × PipelineState :=
  (s.frameId, { s with frameId := (s.frameId + 1) % 2 ^ 16, frameIdIncremented := true })

/-- Embedding of `PipelineState::markFrameSent` (logging.h lines 51–53). -/
def PipelineState.markFrameSent (s : PipelineState) : PipelineState :=
  { s with frameIdIncremented := false }

/-- Embedding of `PipelineState::updateCameraFrameDuration` (logging.h lines
55–60). -/
def PipelineState.updateCameraFrameDuration (s : PipelineState) (currentTime : Nat) :
    PipelineState :=
  let s := if s.lastCameraFrameTime ≠ 0 then
    { s with cameraFrameDuration := u64sub currentTime s.lastCameraFrameTime }
  else s
  { s with lastCameraFrameTime := currentTime }

/-- Combined per-pipeline callback state: the `PipelineState` entry plus the
`timestampsStreaming` vector for the same pipeline name. -/
structure StreamState where
  ps : PipelineState
  timestamps : List Nat
deriving DecidableEq, Repr

/-- Fresh per-pipeline callback state (empty timestamp vector, default
`PipelineState`). -/
def StreamState.init : StreamState := ⟨PipelineState.init, []⟩

/-- One RTP header extension as attached by
`gst_rtp_buffer_add_extension_onebyte_header(&rtpBuf, id, &value, size)`:
the extension id, the byte length of the value, and the value itself. -/
structure RtpExt where
  id : Nat
  len : Nat
  value : Nat
deriving DecidableEq, Repr

/-- The four instrumentation points of the streaming pipeline. -/
inductive Ident where
  | camsrc
  | vidconv
  | enc
  | rtppay
deriving DecidableEq, Repr

/-- Embedding of `HandleCameraSourceEvent` (logging.h lines 93–104): update
the inter-frame duration; if the previous frame left timestamps behind,
clear them and mark the frame sent. -/
def handleCameraSourceEvent (s : StreamState) (currentTime : Nat) : StreamState :=
  let ps := s.ps.updateCameraFrameDuration currentTime
  if s.timestamps ≠ [] then
    ⟨ps.markFrameSent, []⟩
  else
    ⟨ps, s.timestamps⟩

/-- Embedding of `AddRtpHeaderMetadata` (logging.h lines 106–150).  Returns
the updated state and the list of extensions attached to the buffer.  The
six `gst_rtp_buffer_add_extension_onebyte_header` calls of the source all
pass the literal extension id `1`, each with an 8-byte (`sizeof(uint64_t)`)
value, in the order frame id, camera frame duration, video-convert duration,
encoder duration, payloader duration, payloader timestamp. -/
def AddRtpHeaderMetadata (s : StreamState) : StreamState × List RtpExt :=
  if s.ps.frameIdIncremented then
    (s, [])
  else
    match s.timestamps with
    | t0 :: t1 :: t2 :: t3 :: _ =>
      let videoConvertDuration := u64sub t1 t0
      let encoderDuration := u64sub t2 t1
      let rtpPayloaderDuration := u64sub t3 t2
      let (frameId, ps) := s.ps.getAndIncrementFrameId
      let rtpPayloaderTimestamp := t3
      let cameraFrameDuration := s.ps.cameraFrameDuration
      (⟨ps, s.timestamps⟩,
        [⟨1, 8, frameId⟩,
         ⟨1, 8, cameraFrameDuration⟩,
         ⟨1, 8, videoConvertDuration⟩,
         ⟨1, 8, encoderDuration⟩,
         ⟨1, 8, rtpPayloaderDuration⟩,
         ⟨1, 8, rtpPayloaderTimestamp⟩])
    | _ => (s, [])

/-- Embedding of `OnIdentityHandoffCameraStreaming` (logging.h lines
156–181) for one buffer passing the identity element `ident` at time
`currentTime`: the updated per-pipeline state and the extensions attached to
this buffer (non-empty only on the first payloader packet of a frame). -/
def OnIdentityHandoffCameraStreaming (s : StreamState) (ident : Ident)
    (currentTime : Nat) : StreamState × List RtpExt :=
  let s := if ident = Ident.camsrc then handleCameraSourceEvent s currentTime else s
  match ident with
  | Ident.rtppay =>
    if ¬ s.ps.frameIdIncremented then
      AddRtpHeaderMetadata ⟨s.ps, s.timestamps ++ [currentTime]⟩
    else
      (s, [])
  | _ => (⟨s.ps, s.timestamps ++ [currentTime]⟩, [])

/-- Process a list of handoff events, collecting for each event the
extensions attached to its buffer. -/
def processHandoffs (s : StreamState) : List (Ident × Nat) → StreamState × List (List RtpExt)
  | [] => (s, [])
  | (ident, t) :: rest =>
    let (s1, exts) := OnIdentityHandoffCameraStreaming s ident t
    let (s2, rests) := processHandoffs s1 rest
    (s2, exts :: rests)

/-- Handoff event sequence of one data frame as delivered by the media flow
order of the pipeline (spec §5 ordering guarantees): the camera source, the
video converter and the encoder identities fire once, then the payloader
identity fires once per RTP packet of the frame. -/
def frameEvents (t0 t1 t2 t3 : Nat) (laterPackets : List Nat) : List (Ident × Nat) :=
  (Ident.camsrc, t0) :: (Ident.vidconv, t1) :: (Ident.enc, t2) :: (Ident.rtppay, t3) ::
    laterPackets.map (fun t => (Ident.rtppay, t))

/-! ## NTP synchronizer

Embedding of `src/VR_App/src/ntp_timer.cpp` and `ntp_timer.h`: one sample
exchange (`GetOneNtpSample`) and one sync cycle (`SyncWithServer`).  A raw
measurement is the quadruple of microsecond timestamps `(T1, T2, T3, T4)`
(all `uint64_t`); a `none` raw measurement stands for any of the failure
paths that increment `consecutiveSyncFailures_` (resolve failure, receive
failure, exception).  The EMA over `double` is modelled by exact rational
arithmetic (alpha = 1/10). -/

/-- Embedding of `struct Sample` (ntp_timer.h lines 18–22), the `diff` field
omitted (never read by the synchronizer logic under verification). -/
structure NtpSample where
  offset : Int
  rtt : Nat
deriving DecidableEq, Repr

/-- Embedding of the synchronizer state of `NtpTimer` (ntp_timer.h lines
53–68). -/
structure NtpState where
  ntpServerAddress : String
  fallbackServerAddress : String
  usingFallback : Bool
  smoothedOffsetUs : ℚ
  hasInitialOffset : Bool
  syncHealthy : Bool
  consecutiveSyncFailures : Nat
deriving DecidableEq, Repr

/-- State of a freshly constructed `NtpTimer` (primary server and fallback
as given, everything else default-initialised). -/
def NtpState.init (server fallback : String) : NtpState :=
  ⟨server, fallback, false, 0, false, false, 0⟩

/-- Threshold of `consecutiveSyncFailures_` before switching to the fallback
server (`FALLBACK_THRESHOLD`, ntp_timer.h line 68). -/
def FALLBACK_THRESHOLD : Nat := 5

/-- Embedding of `NtpTimer::GetOneNtpSample` (ntp_timer.cpp lines 112–209).
`raw = none` is any failing exchange: the failure counter is incremented and
the health flag cleared.  `raw = some (T1, T2, T3, T4)` computes the offset
`((int64)(T2 - T1) + (int64)(T3 - T4)) / 2` (unsigned subtraction, then
signed truncated division) and the delay `(T4 - T1) - (T3 - T2)` (unsigned);
a delay above 20 000 µs is rejected without touching the counter; an
accepted sample resets the counter and marks the sync healthy. -/
def GetOneNtpSample (st : NtpState) (raw : Option (Nat × Nat × Nat × Nat)) :
    NtpState × Option NtpSample :=
  match raw with
  | none =>
    ({ st with consecutiveSyncFailures := st.consecutiveSyncFailures + 1,
               syncHealthy := false }, none)
  | some (t1, t2, t3, t4) =>
    let offset := Int.tdiv (toInt64 (u64sub t2 t1) + toInt64 (u64sub t3 t4)) 2
    let delay := u64sub (u64sub t4 t1) (u64sub t3 t2)
    if delay > 20000 then
      (st, none)
    else
      ({ st with consecutiveSyncFailures := 0, syncHealthy := true },
        some ⟨offset, delay⟩)

/-- The sampling loop of `SyncWithServer` (ntp_timer.cpp lines 58–64): one
`GetOneNtpSample` call per raw measurement, collecting the accepted samples
in order.  The source runs exactly three iterations per cycle. -/
def sampleLoop (st : NtpState) : List (Option (Nat × Nat × Nat × Nat)) →
    NtpState × List NtpSample
  | [] => (st, [])
  | raw :: rest =>
    let (st1, s) := GetOneNtpSample st raw
    let (st2, samples) := sampleLoop st1 rest
    match s with
    | some sample => (st2, sample :: samples)
    | none => (st2, samples)

/-- Best-sample selection of `SyncWithServer` (ntp_timer.cpp lines 81–90):
a linear scan keeping the first sample of strictly smallest round trip.
The source initialises `bestRtt` to the largest `uint64_t` and `bestIndex`
to 0, so the first good sample is the starting candidate either way. -/
def chooseBest : NtpSample → List NtpSample → NtpSample
  | best, [] => best
  | best, s :: rest => chooseBest (if s.rtt < best.rtt then s else best) rest

/-- The decision tail of `NtpTimer::SyncWithServer` (ntp_timer.cpp lines
66–105), run on the state after the sampling loop and the collected good
samples: switch to the fallback server when the cycle produced no good
sample and the failure counter has reached `FALLBACK_THRESHOLD` (resetting
the counter), otherwise smooth the best sample's offset into
`smoothedOffsetUs_` (first sample taken as-is, then EMA with alpha = 1/10). -/
def syncCycleDecision (st1 : NtpState) (goodSamples : List NtpSample) : NtpState :=
  if goodSamples.isEmpty ∧ ¬ st1.usingFallback ∧
      FALLBACK_THRESHOLD ≤ st1.consecutiveSyncFailures ∧
      st1.fallbackServerAddress ≠ "" then
    { st1 with ntpServerAddress := st1.fallbackServerAddress,
               usingFallback := true,
               consecutiveSyncFailures := 0 }
  else
    match goodSamples with
    | [] => st1
    | s :: rest =>
      let best := chooseBest s rest
      if ¬ st1.hasInitialOffset then
        { st1 with smoothedOffsetUs := (best.offset : ℚ), hasInitialOffset := true }
      else
        { st1 with smoothedOffsetUs :=
            (1 / 10 : ℚ) * (best.offset : ℚ) + (1 - 1 / 10) * st1.smoothedOffsetUs }

/-- Embedding of `NtpTimer::SyncWithServer` (ntp_timer.cpp lines 55–105):
the sampling loop followed by the fallback/smoothing decision. -/
def SyncWithServer (st : NtpState) (raws : List (Option (Nat × Nat × Nat × Nat))) :
    NtpState :=
  syncCycleDecision (sampleLoop st raws).1 (sampleLoop st raws).2

/-! ## REST client

Embedding of `RestClient::UpdateStreamingConfig`
(`src/VR_App/src/rest_client.cpp` lines 58–81).  The client-side
`StreamingConfig` (`src/VR_App/include/types/app_state.h` lines 27–47) is
modelled with its fields relevant to the call; the HTTP layer is modelled by
the response the `Put` call produced: `none` for a transport failure, `some`
status/body otherwise. -/

/-- Client-side `StreamingConfig` (app_state.h lines 27–40).  IP addresses
are 4-byte vectors; the resolution is a width/height pair. -/
structure ClientStreamingConfig where
  headset_ip : List Nat
  jetson_ip : List Nat
  portLeft : Int
  portRight : Int
  codec : Codec
  encodingQuality : Int
  bitrate : Int
  resolutionWidth : Int
  resolutionHeight : Int
  stereoMode : Bool
  fps : Int
deriving DecidableEq, Repr

/-- An HTTP response as observed by httplib: status code and body. -/
structure HttpResponse where
  status : Int
  body : String
deriving DecidableEq, Repr

/-- Embedding of `RestClient::UpdateStreamingConfig` (rest_client.cpp lines
58–81): given the stored local config `config_`, the new config argument and
the outcome of the `PUT /api/v1/stream/update` call, return the function's
return value and the stored local config afterwards.  A transport failure
(`none`) or a status other than 200 returns `-1` and leaves `config_`
untouched; status 200 returns `0` and replaces `config_` with the new
config. -/
def UpdateStreamingConfig (localCfg newCfg : ClientStreamingConfig)
    (res : Option HttpResponse) : Int × ClientStreamingConfig :=
  match res with
  | none => (-1, localCfg)
  | some r =>
    if r.status ≠ 200 then
      (-1, localCfg)
    else
      (0, newCfg)

/-! ## Camera statistics

Embedding of `CameraStatsSnapshot` (`src/VR_App/include/types/camera_types.h`
lines 115–143) and `CameraStats::averagedSnapshot`
(`src/VR_App/src/camera_stats.cpp` lines 47–98).  The three `double` fields
are modelled as exact rationals; the `uint64_t` fields accumulate with
wrap-around and divide with integer division, exactly as the source's
`+=`/`/=` on `uint64_t`. -/

structure CameraStatsSnapshot where
  prevTimestamp : ℚ
  currTimestamp : ℚ
  fps : ℚ
  camera : Nat
  vidConv : Nat
  enc : Nat
  rtpPay : Nat
  udpStream : Nat
  rtpDepay : Nat
  dec : Nat
  queue : Nat
  presentation : Nat
  totalLatency : Nat
  rtpPayTimestamp : Nat
  udpSrcTimestamp : Nat
  rtpDepayTimestamp : Nat
  decTimestamp : Nat
  queueTimestamp : Nat
  frameReadyTimestamp : Nat
  frameId : Nat
  packetsPerFrame : Nat
deriving DecidableEq, Repr

/-- Sum of a `uint64_t` field over the history, wrapped modulo `2^64` (the
`avg.field += snap.field` accumulation of the source wraps at each step,
which equals the wrapped total). -/
def u64FieldSum (history : List CameraStatsSnapshot) (f : CameraStatsSnapshot → Nat) : Nat :=
  (history.map f).sum % 2 ^ 64

/-- The non-empty branch of `CameraStats::averagedSnapshot` (camera_stats.cpp
lines 54–97) on the history `h :: hs`: duration and timing-rate fields are
averaged over the history length, the metadata fields take the most recent
(`history_.back()`) values, and the remaining timestamp fields keep the
zero-initialisation of `CameraStatsSnapshot avg{}` except those overwritten
from the latest entry. -/
def historyAverage (h : CameraStatsSnapshot) (hs : List CameraStatsSnapshot) :
    CameraStatsSnapshot :=
  let l := h :: hs
  let n := l.length
  let latest := hs.getLast?.getD h
  { prevTimestamp := (l.map (·.prevTimestamp)).sum / (n : ℚ)
    currTimestamp := (l.map (·.currTimestamp)).sum / (n : ℚ)
    fps := (l.map (·.fps)).sum / (n : ℚ)
    camera := u64FieldSum l (·.camera) / n
    vidConv := u64FieldSum l (·.vidConv) / n
    enc := u64FieldSum l (·.enc) / n
    rtpPay := u64FieldSum l (·.rtpPay) / n
    udpStream := u64FieldSum l (·.udpStream) / n
    rtpDepay := u64FieldSum l (·.rtpDepay) / n
    dec := u64FieldSum l (·.dec) / n
    queue := u64FieldSum l (·.queue) / n
    presentation := u64FieldSum l (·.presentation) / n
    totalLatency := u64FieldSum l (·.totalLatency) / n
    rtpPayTimestamp := latest.rtpPayTimestamp
    udpSrcTimestamp := latest.udpSrcTimestamp
    rtpDepayTimestamp := latest.rtpDepayTimestamp
    decTimestamp := latest.decTimestamp
    queueTimestamp := latest.queueTimestamp
    frameReadyTimestamp := latest.frameReadyTimestamp
    frameId := latest.frameId
    packetsPerFrame := latest.packetsPerFrame }

/-- Embedding of `CameraStats::averagedSnapshot` (camera_stats.cpp lines
47–98).  `live` is the snapshot of the current atomic fields that
`snapshot()` would take; `history` is the rolling history under the history
mutex.  An empty history returns the live snapshot; otherwise the averaged
snapshot is computed with the history length as divisor. -/
def averagedSnapshot (live : CameraStatsSnapshot) (history : List CameraStatsSnapshot) :
    CameraStatsSnapshot :=
  match history with
  | [] => live
  | h :: hs => historyAverage h hs

/-! ## Telemetry gateway: dotted-path JSON field access

Embedding of `ParsedMessage::get<T>`
(`src/VR_App/include/ros_network_gateway_client.h` lines 44–79) and the
top-level single-element array unwrapping of
`SchemaRegistry::buildParsedMessage` (lines 139–167).  JSON documents are
modelled by the inductive `J`; numbers are modelled as integers (sufficient
for the claims under verification); errors are string messages as in the
source's `std::runtime_error`s. -/

inductive J where
  | null
  | bool (b : Bool)
  | num (n : Int)
  | str (s : String)
  | arr (xs : List J)
  | obj (kvs : List (String × J))
deriving Repr

/-- Embedding of nlohmann's `cursor->contains(part)` / `cursor->at(part)`
pair: key lookup on an object, `none` on a missing key or a non-object
cursor (on a non-object, `contains` is false). -/
def J.atKey : J → String → Option J
  | J.obj kvs, k => kvs.lookup k
  | _, _ => none

/-- Predicate used by the walk of `ParsedMessage::get`: `is_array() &&
!empty()`. -/
def J.isNonEmptyArray : J → Bool
  | J.arr (_ :: _) => true
  | _ => false

/-- One step of the path walk of `ParsedMessage::get` (header lines 52–65):
check `contains`, descend into the key, then, if the new cursor is a
non-empty array, descend into its element 0. -/
def walkStep (cursor : J) (part : String) : Except String J :=
  match cursor.atKey part with
  | none => Except.error ("ROS: Field " ++ part ++ " not found in message path")
  | some next =>
    match next with
    | J.arr (x :: _) => Except.ok x
    | _ => Except.ok next

/-- The full path walk of `ParsedMessage::get` over the split path
components. -/
def walkPath (cursor : J) : List String → Except String J
  | [] => Except.ok cursor
  | p :: ps =>
    match walkStep cursor p with
    | Except.error e => Except.error e
    | Except.ok next => walkPath next ps

/-- Character-level worker for `getlineSplit`: consume the current token
into `acc`; a dot ends the token, and a dot at the very end of the input
produces no further token (the next `getline` call fails at end of stream). -/
def getlineSplitAux : List Char → List Char → List String
  | [], acc => [acc.reverse.asString]
  | c :: cs, acc =>
    if c = '.' then
      match cs with
      | [] => [acc.reverse.asString]
      | _ => acc.reverse.asString :: getlineSplitAux cs []
    else
      getlineSplitAux cs (c :: acc)

/-- Splitting behaviour of `std::getline(ss, part, '.')` in the walk loop of
`ParsedMessage::get` (header line 52): like splitting on dots except that a
trailing delimiter produces no final empty component (the last `getline`
extracts nothing and fails) and the empty string produces no components. -/
def getlineSplit (field : String) : List String :=
  match field.toList with
  | [] => []
  | cs => getlineSplitAux cs []

/-- The final cast of `ParsedMessage::get` (header lines 67–78) for `T =`
an integral number: an empty-array cursor raises the empty-array error (the
source rethrows it as a type mismatch); a non-empty array is unwrapped to
its element 0 before the cast; a non-number cast target raises the
type-mismatch error. -/
def finalCastNum (field : String) (cursor : J) : Except String Int :=
  match cursor with
  | J.arr [] => Except.error ("ROS: Type mismatch for field " ++ field ++ ": empty array")
  | J.arr (x :: _) =>
    match x with
    | J.num n => Except.ok n
    | _ => Except.error ("ROS: Type mismatch for field " ++ field)
  | J.num n => Except.ok n
  | _ => Except.error ("ROS: Type mismatch for field " ++ field)

/-- Embedding of `ParsedMessage::get<T>(field)` for a numeric `T` (header
lines 44–79): split the path on dots, walk the document, cast the final
cursor. -/
def ParsedMessage.getNum (data : J) (field : String) : Except String Int :=
  match walkPath data (getlineSplit field) with
  | Except.error e => Except.error e
  | Except.ok cursor => finalCastNum field cursor

/-- Top-level single-element array unwrapping of
`SchemaRegistry::buildParsedMessage` (header lines 160–164): every top-level
value that is an array of size exactly 1 is replaced by its element. -/
def buildParsedMessageUnwrap (payload : J) : J :=
  match payload with
  | J.obj kvs => J.obj (kvs.map (fun kv =>
      match kv.2 with
      | J.arr [x] => (kv.1, x)
      | _ => kv))
  | other => other

/-! ### Variant following the specification's words

The spec (§4.5) says the walk unwraps the cursor only when it is a
*single-element* array.  This definition follows the spec's words (it is not
a translation of the source) and exists only to be compared against the
source-derived `walkStep`/`finalCastNum` above. -/

/-- Modelled from the spec: a walk step that unwraps only single-element
arrays, following §4.5 "if the current cursor is a single-element array,
descend into that element". -/
def walkStepSpecWorded (cursor : J) (part : String) : Except String J :=
  match cursor.atKey part with
  | none => Except.error ("ROS: Field " ++ part ++ " not found in message path")
  | some next =>
    match next with
    | J.arr [x] => Except.ok x
    | _ => Except.ok next

/-- Modelled from the spec: the path walk with the spec-worded unwrap rule. -/
def walkPathSpecWorded (cursor : J) : List String → Except String J
  | [] => Except.ok cursor
  | p :: ps =>
    match walkStepSpecWorded cursor p with
    | Except.error e => Except.error e
    | Except.ok next => walkPathSpecWorded next ps

/-- Modelled from the spec: the final cast under the spec's words — "at the
final step, the value is cast to T", with no unwrap of multi-element arrays,
so casting an array to a scalar is a type mismatch.  Single-element arrays
were already unwrapped by the walk. -/
def finalCastNumSpecWorded (field : String) (cursor : J) : Except String Int :=
  match cursor with
  | J.num n => Except.ok n
  | _ => Except.error ("ROS: Type mismatch for field " ++ field)

/-- Modelled from the spec: `get<T>` as the spec's words describe it. -/
def getNumSpecWorded (data : J) (field : String) : Except String Int :=
  match walkPathSpecWorded data (getlineSplit field) with
  | Except.error e => Except.error e
  | Except.ok cursor => finalCastNumSpecWorded field cursor

/-! ## Claim theorems -/

/-- C6 counterexample: the claim says the backoff wait for the fifth
consecutive failure is 3200 ms; the backoff expression of
`RunCameraStreamingPipelineDynamic` yields 10 000 ms at `n = 5`, because the
ternary condition is `consecutive_failures < 5`, not `<= 5`. -/
theorem C6_backoff_at_five_counterexample :
    backoffMs 5 = 10000 ∧ backoffMs 5 ≠ 3200 := by
  decide

/-- C6 (amended): for every supervisor worker and every consecutive-failure
count n ≥ 1, the backoff wait before the next attempt is exactly
200·2^(n−1) ms for n = 1..4 (200, 400, 800, 1600 ms) and 10 000 ms for every
n ≥ 5. -/
theorem C6_backoff_table_amended :
    ∀ n : Nat, 1 ≤ n →
      (n ≤ 4 → backoffMs n = 200 * 2 ^ (n - 1)) ∧
      (5 ≤ n → backoffMs n = 10000) ∧
      backoffMs 1 = 200 ∧ backoffMs 2 = 400 ∧ backoffMs 3 = 800 ∧ backoffMs 4 = 1600 := by
  intro n _
  refine ⟨fun h4 => ?_, fun h5 => ?_, by decide, by decide, by decide, by decide⟩
  · unfold backoffMs MAX_CONSECUTIVE_FAILURES
    rw [if_pos (by omega)]
  · unfold backoffMs MAX_CONSECUTIVE_FAILURES
    rw [if_neg (by omega)]

/-- C6 witness: the amended backoff table evaluated at concrete failure
counts. -/
theorem C6_backoff_table_amended_witness :
    backoffMs 3 = 200 * 2 ^ (3 - 1) ∧ backoffMs 7 = 10000 := by
  exact ⟨(C6_backoff_table_amended 3 (by decide)).1 (by decide),
         (C6_backoff_table_amended 7 (by decide)).2.1 (by decide)⟩

/-- C10: if the rolling history is empty, `CameraStats::averagedSnapshot`
returns the live snapshot of the atomic stat fields rather than an average;
on a non-empty history it computes `historyAverage`, whose divisor is the
history length, which is positive — the division is guarded by the
emptiness check and the operation is total. -/
theorem C10_averagedSnapshot_empty_guard :
    (∀ live : CameraStatsSnapshot, averagedSnapshot live [] = live) ∧
    (∀ (live h : CameraStatsSnapshot) (hs : List CameraStatsSnapshot),
      averagedSnapshot live (h :: hs) = historyAverage h hs ∧ 0 < (h :: hs).length) := by
  refine ⟨fun live => rfl, fun live h hs => ⟨rfl, by simp⟩⟩

/-- C8: `UpdateStreamingConfig` returns success (0) iff the PUT request
completed with HTTP status 200; on success the stored local config snapshot
is replaced by the new config, and on any other status or on a transport
failure it returns -1 and the stored local config is unchanged. -/
theorem C8_update_streaming_config :
    ∀ (localCfg newCfg : ClientStreamingConfig) (res : Option HttpResponse),
      ((UpdateStreamingConfig localCfg newCfg res).1 = 0 ↔
        ∃ body, res = some ⟨200, body⟩) ∧
      ((UpdateStreamingConfig localCfg newCfg res).1 = 0 →
        (UpdateStreamingConfig localCfg newCfg res).2 = newCfg) ∧
      ((UpdateStreamingConfig localCfg newCfg res).1 ≠ 0 →
        (UpdateStreamingConfig localCfg newCfg res).1 = -1 ∧
        (UpdateStreamingConfig localCfg newCfg res).2 = localCfg) := by
  intro localCfg newCfg res
  match res with
  | none =>
    refine ⟨⟨fun h => by simp [UpdateStreamingConfig] at h, ?_⟩, ?_, ?_⟩ <;>
      simp [UpdateStreamingConfig]
  | some r =>
    by_cases h : r.status = 200
    · refine ⟨⟨fun _ => ⟨r.body, ?_⟩, fun _ => ?_⟩, fun _ => ?_, fun hne => ?_⟩
      · cases r
        simp_all
      · simp [UpdateStreamingConfig, h]
      · simp [UpdateStreamingConfig, h]
      · exact absurd (by simp [UpdateStreamingConfig, h]) hne
    · refine ⟨⟨fun h0 => ?_, fun ⟨body, hb⟩ => ?_⟩, fun h0 => ?_, fun _ => ?_⟩
      · simp [UpdateStreamingConfig, h] at h0
      · cases hb
        simp at h
      · simp [UpdateStreamingConfig, h] at h0
      · simp [UpdateStreamingConfig, h]

/-- C8 witness: a 200 response replaces the snapshot; a transport failure
leaves it unchanged. -/
theorem C8_update_streaming_config_witness :
    ((UpdateStreamingConfig
        ⟨[10, 0, 0, 1], [10, 0, 0, 2], 8554, 8556, Codec.JPEG, 60, 400000, 1920, 1080, true, 60⟩
        ⟨[10, 0, 0, 1], [10, 0, 0, 2], 8554, 8556, Codec.JPEG, 85, 400000, 1920, 1080, true, 60⟩
        (some ⟨200, "ok"⟩)).2 =
      ⟨[10, 0, 0, 1], [10, 0, 0, 2], 8554, 8556, Codec.JPEG, 85, 400000, 1920, 1080, true, 60⟩) ∧
    ((UpdateStreamingConfig
        ⟨[10, 0, 0, 1], [10, 0, 0, 2], 8554, 8556, Codec.JPEG, 60, 400000, 1920, 1080, true, 60⟩
        ⟨[10, 0, 0, 1], [10, 0, 0, 2], 8554, 8556, Codec.JPEG, 85, 400000, 1920, 1080, true, 60⟩
        none).2 =
      ⟨[10, 0, 0, 1], [10, 0, 0, 2], 8554, 8556, Codec.JPEG, 60, 400000, 1920, 1080, true, 60⟩) := by
  constructor
  · exact (C8_update_streaming_config _ _ (some ⟨200, "ok"⟩)).2.1 (by decide)
  · exact ((C8_update_streaming_config _ _ none).2.2 (by decide)).2

/-- C9: while the config version is 0, every supervisor worker (stereo/mono
workers and the panoramic worker) idles and never builds a pipeline — over a
whole run, every iteration that observes version 0 decides a non-build
action — and while the configured mode is MONO, the sensor-1 worker never
builds a pipeline. -/
theorem C9_idle_boundaries :
    (∀ (failures : Nat) (cfg : StreamingConfig) (sensorId : Nat),
      workerIterationAction failures 0 cfg sensorId ≠ WorkerAction.build) ∧
    (∀ (failures version : Nat) (cfg : StreamingConfig),
      cfg.videoMode = VideoMode.MONO →
      workerIterationAction failures version cfg 1 ≠ WorkerAction.build) ∧
    (∀ cfg : StreamingConfig, panoramicIterationAction 0 cfg ≠ WorkerAction.build) ∧
    (∀ (observations : List (Nat × Nat × StreamingConfig)) (sensorId : Nat),
      (∀ o ∈ observations, o.2.1 = 0) →
      ∀ o ∈ observations,
        workerIterationAction o.1 o.2.1 o.2.2 sensorId ≠ WorkerAction.build) := by
  have h0 : ∀ (failures : Nat) (cfg : StreamingConfig) (sensorId : Nat),
      workerIterationAction failures 0 cfg sensorId ≠ WorkerAction.build := by
    intro failures cfg sensorId
    unfold workerIterationAction
    by_cases h : MAX_CONSECUTIVE_FAILURES ≤ failures <;> simp [h]
  refine ⟨h0, ?_, ?_, ?_⟩
  · intro failures version cfg hMono
    unfold workerIterationAction
    by_cases h : MAX_CONSECUTIVE_FAILURES ≤ failures
    · simp [h]
    · by_cases hv : version = 0 <;> simp [h, hv, hMono]
  · intro cfg
    simp [panoramicIterationAction]
  · intro observations sensorId hall o ho
    rw [hall o ho]
    exact h0 o.1 o.2.2 sensorId

/-- C9 witness: at version 0 the sensor-0 worker with no failures idles, and
in MONO mode the sensor-1 worker sleeps instead of building. -/
theorem C9_idle_boundaries_witness :
    workerIterationAction 0 0
      ⟨"192.168.1.100", 8554, 8556, Codec.JPEG, 85, 400000, 1920, 1080, VideoMode.STEREO, 60⟩ 0 ≠
      WorkerAction.build ∧
    workerIterationAction 0 7
      ⟨"192.168.1.100", 8554, 8556, Codec.JPEG, 85, 400000, 1920, 1080, VideoMode.MONO, 60⟩ 1 ≠
      WorkerAction.build ∧
    workerIterationAction 2 0
      ⟨"192.168.1.100", 8554, 8556, Codec.JPEG, 85, 400000, 1920, 1080, VideoMode.STEREO, 60⟩ 0 ≠
      WorkerAction.build := by
  refine ⟨C9_idle_boundaries.1 0 _ 0, C9_idle_boundaries.2.1 0 7 _ rfl, ?_⟩
  exact C9_idle_boundaries.2.2.2
    [(2, 0, ⟨"192.168.1.100", 8554, 8556, Codec.JPEG, 85, 400000, 1920, 1080, VideoMode.STEREO, 60⟩)]
    0 (by intro o ho; simp at ho; rw [ho])
    (2, 0, ⟨"192.168.1.100", 8554, 8556, Codec.JPEG, 85, 400000, 1920, 1080, VideoMode.STEREO, 60⟩)
    (by simp)

/-- Helper: `CanUpdateDynamically` holds exactly when all structural fields
agree. -/
theorem canUpdateDynamically_iff (oldCfg newCfg : StreamingConfig) :
    CanUpdateDynamically oldCfg newCfg = true ↔
      (oldCfg.horizontalResolution = newCfg.horizontalResolution ∧
       oldCfg.verticalResolution = newCfg.verticalResolution ∧
       oldCfg.fps = newCfg.fps ∧
       oldCfg.codec = newCfg.codec ∧
       oldCfg.videoMode = newCfg.videoMode ∧
       oldCfg.ip = newCfg.ip ∧
       oldCfg.portLeft = newCfg.portLeft ∧
       oldCfg.portRight = newCfg.portRight) := by
  simp only [CanUpdateDynamically, decide_eq_true_eq, not_or, not_not, ne_eq]

/-- C2: a config change old→new is hot-swappable iff only the
encoder-quality / bitrate fields differ (any difference in resolution,
frame rate, codec, video mode, IP address or either port forces a rebuild);
and after a hot-swappable change on a running pipeline (whose codec is one
the pipeline builder supports) no rebuild occurs: the same pipeline handle
remains in use, the cached config becomes the new config, and the only
property set is `quality` (JPEG) or `bitrate` (H264/H265) on the element
named `encoder`. -/
theorem C2_hot_swap :
    (∀ oldCfg newCfg : StreamingConfig,
      CanUpdateDynamically oldCfg newCfg = true ↔
        newCfg = { oldCfg with encodingQuality := newCfg.encodingQuality,
                               bitrate := newCfg.bitrate }) ∧
    (∀ (pipeline : Nat) (currentConfig newCfg : StreamingConfig),
      CanUpdateDynamically currentConfig newCfg = true →
      buildCameraPipelineSupported currentConfig.codec = true →
      (onVersionChange pipeline currentConfig newCfg).rebuild = false ∧
      (onVersionChange pipeline currentConfig newCfg).pipeline = pipeline ∧
      (onVersionChange pipeline currentConfig newCfg).currentConfig = newCfg ∧
      ((newCfg.codec = Codec.JPEG ∧
        (onVersionChange pipeline currentConfig newCfg).applied =
          some (PropertyUpdate.setProp "encoder" "quality" newCfg.encodingQuality)) ∨
       ((newCfg.codec = Codec.H264 ∨ newCfg.codec = Codec.H265) ∧
        (onVersionChange pipeline currentConfig newCfg).applied =
          some (PropertyUpdate.setProp "encoder" "bitrate" newCfg.bitrate)))) := by
  constructor
  · intro oldCfg newCfg
    rw [canUpdateDynamically_iff]
    cases oldCfg
    cases newCfg
    simp only [StreamingConfig.mk.injEq]
    tauto
  · intro pipeline currentConfig newCfg hdyn hsupp
    have hcodec : currentConfig.codec = newCfg.codec :=
      ((canUpdateDynamically_iff currentConfig newCfg).mp hdyn).2.2.2.1
    rw [hcodec] at hsupp
    unfold onVersionChange
    rw [if_pos hdyn]
    cases hc : newCfg.codec <;> rw [hc] at hsupp <;>
      simp_all [updatePipelineProperties, buildCameraPipelineSupported]

/-- C2 witness: a JPEG quality change from 60 to 85 is hot-swappable and is
applied by setting the quality property of the encoder element, with no
rebuild. -/
theorem C2_hot_swap_witness :
    (CanUpdateDynamically
      ⟨"192.168.1.100", 8554, 8556, Codec.JPEG, 60, 400000, 1920, 1080, VideoMode.STEREO, 60⟩
      ⟨"192.168.1.100", 8554, 8556, Codec.JPEG, 85, 400000, 1920, 1080, VideoMode.STEREO, 60⟩ = true) ∧
    (onVersionChange 7
      ⟨"192.168.1.100", 8554, 8556, Codec.JPEG, 60, 400000, 1920, 1080, VideoMode.STEREO, 60⟩
      ⟨"192.168.1.100", 8554, 8556, Codec.JPEG, 85, 400000, 1920, 1080, VideoMode.STEREO, 60⟩).rebuild
      = false := by
  refine ⟨(C2_hot_swap.1 _ _).mpr (by decide), (C2_hot_swap.2 7 _ _ (by decide) (by decide)).1⟩

/-- C3: after the command channel processes an update command carrying S
from version V, reading the cell returns (S, V+1); and since writer and
readers both hold `cfg_mutex` for the whole cell access, every read around
the update observes exactly the pre-state (old, V) or the post-state
(S, V+1) — never S paired with V, and never the old config paired with V+1. -/
theorem C3_config_cell_atomic_update :
    ∀ (old : StreamingConfig) (v : Nat) (s : StreamingConfig), s ≠ old →
      readConfigCell (controlLoopStep (⟨old, v⟩, false) (ControlCmd.update s)).1 = (s, v + 1) ∧
      ∀ obs ∈ cellObservations ⟨old, v⟩ (ControlCmd.update s),
        (obs = ⟨old, v⟩ ∨ obs = ⟨s, v + 1⟩) ∧
        ¬ (obs.cfg = s ∧ obs.version = v) ∧
        ¬ (obs.cfg = old ∧ obs.version = v + 1) := by
  intro old v s hne
  refine ⟨rfl, ?_⟩
  intro obs hobs
  simp only [cellObservations, controlLoopStep, List.mem_cons, List.mem_singleton,
    List.not_mem_nil, or_false] at hobs
  rcases hobs with h | h <;> subst h
  · exact ⟨Or.inl rfl, fun hmix => hne (show old = s from hmix.1).symm,
      fun hmix => Nat.ne_of_lt (Nat.lt_succ_self v) (show v = v + 1 from hmix.2)⟩
  · exact ⟨Or.inr rfl, fun hmix =>
      Nat.ne_of_lt (Nat.lt_succ_self v) (show v + 1 = v from hmix.2).symm,
      fun hmix => hne (show s = old from hmix.1)⟩

/-- C3 witness: a concrete update (quality 60 → 85) read back after
processing yields the new config with the incremented version, and neither
mixed pair is observable. -/
theorem C3_config_cell_atomic_update_witness :
    readConfigCell (controlLoopStep
        ((⟨⟨"192.168.1.100", 8554, 8556, Codec.JPEG, 60, 400000, 1920, 1080, VideoMode.STEREO, 60⟩,
           3⟩ : ConfigCell), false)
        (ControlCmd.update
          ⟨"192.168.1.100", 8554, 8556, Codec.JPEG, 85, 400000, 1920, 1080, VideoMode.STEREO, 60⟩)).1 =
      (⟨"192.168.1.100", 8554, 8556, Codec.JPEG, 85, 400000, 1920, 1080, VideoMode.STEREO, 60⟩, 4) := by
  exact (C3_config_cell_atomic_update
    ⟨"192.168.1.100", 8554, 8556, Codec.JPEG, 60, 400000, 1920, 1080, VideoMode.STEREO, 60⟩ 3
    ⟨"192.168.1.100", 8554, 8556, Codec.JPEG, 85, 400000, 1920, 1080, VideoMode.STEREO, 60⟩
    (by decide)).1

/-- C7 counterexample: the claim says the walk unwraps the cursor only when
it is a single-element array; the source unwraps any non-empty array into
its first element.  On the payload with top-level field f = [1, 2],
the source's `get<int>("f")` returns 1, while the behaviour the claim
describes (no unwrap of a two-element array, then a scalar cast of an array)
is a type-mismatch error. -/
theorem C7_get_counterexample :
    ParsedMessage.getNum (J.obj [("f", J.arr [J.num 1, J.num 2])]) "f" = Except.ok 1 ∧
    getNumSpecWorded (J.obj [("f", J.arr [J.num 1, J.num 2])]) "f" =
      Except.error "ROS: Type mismatch for field f" ∧
    ParsedMessage.getNum (J.obj [("f", J.arr [J.num 1, J.num 2])]) "f" ≠
      getNumSpecWorded (J.obj [("f", J.arr [J.num 1, J.num 2])]) "f" := by
  exact ⟨rfl, rfl, fun h => Except.noConfusion h⟩

/-- C7 (amended): `get<T>` splits the path on dots, walks the document one
key per component, fails with a descriptive error on a missing field, and
after each descent unwraps the cursor whenever it is a *non-empty* array
(descending into its first element — not only for single-element arrays);
at the final step the value is cast to T (an array cursor is first unwrapped
to its element 0, an empty one is an error); in particular `get<T>("f")` on
a top-level field stored as a one-element array yields the scalar inside
that array. -/
theorem C7_get_amended :
    (∀ (cursor : J) (part : String), cursor.atKey part = none →
      walkStep cursor part =
        Except.error ("ROS: Field " ++ part ++ " not found in message path")) ∧
    (∀ (cursor : J) (part : String) (x : J) (rest : List J),
      cursor.atKey part = some (J.arr (x :: rest)) → walkStep cursor part = Except.ok x) ∧
    (∀ (cursor : J) (part : String) (v : J), cursor.atKey part = some v →
      v.isNonEmptyArray = false → walkStep cursor part = Except.ok v) ∧
    (∀ (field : String) (n : Int) (rest : List J),
      finalCastNum field (J.arr (J.num n :: rest)) = Except.ok n) ∧
    (∀ (kvs : List (String × J)) (k : String) (n : Int),
      getlineSplit k = [k] → (J.obj kvs).atKey k = some (J.arr [J.num n]) →
      ParsedMessage.getNum (J.obj kvs) k = Except.ok n) := by
  refine ⟨?_, ?_, ?_, ?_, ?_⟩
  · intro cursor part h
    simp [walkStep, h]
  · intro cursor part x rest h
    simp [walkStep, h]
  · intro cursor part v h hv
    rw [walkStep, h]
    match v, hv with
    | J.null, _ => rfl
    | J.bool b, _ => rfl
    | J.num n, _ => rfl
    | J.str s, _ => rfl
    | J.arr [], _ => rfl
    | J.obj kvs, _ => rfl
  · intro field n rest
    rfl
  · intro kvs k n hsplit hkey
    rw [ParsedMessage.getNum, hsplit]
    simp [walkPath, walkStep, hkey, finalCastNum]

/-- C7 witness: on the battery payload with voltage = [126], the dotted-path
lookup returns the unwrapped scalar 126, and the walk rules evaluated on
concrete cursors. -/
theorem C7_get_amended_witness :
    ParsedMessage.getNum (J.obj [("voltage", J.arr [J.num 126])]) "voltage" =
      Except.ok 126 ∧
    walkStep (J.obj [("g", J.arr [J.num 5, J.num 6])]) "g" = Except.ok (J.num 5) ∧
    walkStep (J.obj [("g", J.num 9)]) "missing" =
      Except.error ("ROS: Field " ++ "missing" ++ " not found in message path") ∧
    walkStep (J.obj [("g", J.num 9)]) "g" = Except.ok (J.num 9) ∧
    finalCastNum "x" (J.arr [J.num 3, J.num 4]) = Except.ok 3 := by
  refine ⟨?_, ?_, ?_, ?_, ?_⟩
  · exact C7_get_amended.2.2.2.2 [("voltage", J.arr [J.num 126])] "voltage" 126 rfl rfl
  · exact C7_get_amended.2.1 _ "g" (J.num 5) [J.num 6] rfl
  · exact C7_get_amended.1 _ "missing" rfl
  · exact C7_get_amended.2.2.1 _ "g" (J.num 9) rfl rfl
  · exact C7_get_amended.2.2.2.1 "x" 3 [J.num 4]

/-- Helper: `updateCameraFrameDuration` does not touch the frame id. -/
theorem updateCameraFrameDuration_frameId (ps : PipelineState) (t : Nat) :
    (ps.updateCameraFrameDuration t).frameId = ps.frameId := by
  simp only [PipelineState.updateCameraFrameDuration]
  split <;> rfl

/-- Helper: `updateCameraFrameDuration` does not touch the stamped flag. -/
theorem updateCameraFrameDuration_frameIdIncremented (ps : PipelineState) (t : Nat) :
    (ps.updateCameraFrameDuration t).frameIdIncremented = ps.frameIdIncremented := by
  simp only [PipelineState.updateCameraFrameDuration]
  split <;> rfl

/-- Helper: `markFrameSent` clears the stamped flag and nothing else. -/
theorem markFrameSent_fields (ps : PipelineState) :
    ps.markFrameSent = ⟨ps.frameId, false, ps.lastCameraFrameTime, ps.cameraFrameDuration⟩ := by
  cases ps
  rfl

/-- Helper: on a state whose stamped flag is set, every further payloader
packet of the frame is skipped: no state change, no extensions. -/
theorem processHandoffs_stamped (ps : PipelineState) (h : ps.frameIdIncremented = true)
    (ts0 : List Nat) (ts : List Nat) :
    processHandoffs ⟨ps, ts0⟩ (ts.map fun t => (Ident.rtppay, t)) =
      (⟨ps, ts0⟩, ts.map fun _ => []) := by
  induction ts with
  | nil => rfl
  | cons t ts ih =>
    simp [processHandoffs, OnIdentityHandoffCameraStreaming, h, ih]

/-- Helper: the state after the camera-source handoff of a frame boundary:
inter-frame duration updated, timestamps cleared, stamped flag down.  Needs
the reachability invariant that an empty timestamp vector only occurs with
the stamped flag down (true initially and after every camera-source event). -/
theorem handleCameraSourceEvent_eq (s : StreamState) (t0 : Nat)
    (hinv : s.timestamps ≠ [] ∨ s.ps.frameIdIncremented = false) :
    handleCameraSourceEvent s t0 =
      ⟨(s.ps.updateCameraFrameDuration t0).markFrameSent, []⟩ := by
  unfold handleCameraSourceEvent
  by_cases hts : s.timestamps = []
  · have hflag : s.ps.frameIdIncremented = false := by
      rcases hinv with h | h
      · exact absurd hts h
      · exact h
    rw [if_neg (by simp [hts])]
    rw [markFrameSent_fields]
    have : (s.ps.updateCameraFrameDuration t0).frameIdIncremented = false := by
      rw [updateCameraFrameDuration_frameIdIncremented, hflag]
    cases hu : s.ps.updateCameraFrameDuration t0
    rw [hu] at this
    simp_all
  · rw [if_pos hts]

/-- C1 (amended): for every data frame emitted by the server (handoff
sequence camsrc, vidconv, enc, then one payloader handoff per RTP packet,
starting from any reachable callback state), the first RTP packet of the
frame carries exactly six one-byte RTP header extensions, all registered
under extension ID 1 (not IDs 1 through 6), carrying in order frame_id,
inter-frame-duration, video-convert duration, encoder duration, payloader
duration, and payloader exit timestamp, each value occupying 8 bytes;
subsequent packets of the same frame carry no extensions. -/
theorem C1_first_packet_extensions_amended :
    ∀ (s : StreamState) (t0 t1 t2 t3 : Nat) (laterPackets : List Nat),
      s.timestamps ≠ [] ∨ s.ps.frameIdIncremented = false →
      ∃ exts : List RtpExt,
        (processHandoffs s (frameEvents t0 t1 t2 t3 laterPackets)).2 =
          [] :: [] :: [] :: exts :: laterPackets.map (fun _ => ([] : List RtpExt)) ∧
        exts =
          [⟨1, 8, s.ps.frameId⟩,
           ⟨1, 8, (s.ps.updateCameraFrameDuration t0).cameraFrameDuration⟩,
           ⟨1, 8, u64sub t1 t0⟩,
           ⟨1, 8, u64sub t2 t1⟩,
           ⟨1, 8, u64sub t3 t2⟩,
           ⟨1, 8, t3⟩] ∧
        exts.length = 6 ∧
        ∀ e ∈ exts, e.id = 1 ∧ e.len = 8 := by
  intro s t0 t1 t2 t3 laterPackets hinv
  refine ⟨_, ?_, rfl, rfl, ?_⟩
  · have hcam : OnIdentityHandoffCameraStreaming s Ident.camsrc t0 =
        (⟨(s.ps.updateCameraFrameDuration t0).markFrameSent, [t0]⟩, []) := by
      simp [OnIdentityHandoffCameraStreaming, handleCameraSourceEvent_eq s t0 hinv]
    have hfid : ((s.ps.updateCameraFrameDuration t0).markFrameSent).frameId =
        s.ps.frameId := by
      rw [markFrameSent_fields]
      exact updateCameraFrameDuration_frameId _ _
    cases hc : (s.ps.updateCameraFrameDuration t0).markFrameSent with
    | mk fid inc lt dur =>
      have hinc : inc = false := by
        have := markFrameSent_fields (s.ps.updateCameraFrameDuration t0)
        rw [hc] at this
        cases this
        rfl
      subst hinc
      have hfid2 : fid = s.ps.frameId := by
        rw [← hfid, hc]
      have hdur2 : dur = (s.ps.updateCameraFrameDuration t0).cameraFrameDuration := by
        have := markFrameSent_fields (s.ps.updateCameraFrameDuration t0)
        rw [hc] at this
        cases this
        rfl
      rw [frameEvents]
      simp only [processHandoffs, hcam, hc]
      simp only [OnIdentityHandoffCameraStreaming, processHandoffs, AddRtpHeaderMetadata,
        PipelineState.getAndIncrementFrameId]
      simp only [hfid2, hdur2]
      have hrest := processHandoffs_stamped
        ⟨(s.ps.frameId + 1) % 65536, true, lt,
          (s.ps.updateCameraFrameDuration t0).cameraFrameDuration⟩
        rfl [t0, t1, t2, t3] laterPackets
      simp [hrest]
  · intro e he
    simp only [List.mem_cons, List.mem_singleton, List.not_mem_nil, or_false] at he
    rcases he with h | h | h | h | h | h <;> subst h <;> exact ⟨rfl, rfl⟩

/-- C1 counterexample: the claim says the six extensions carry IDs 1 through
6; in the source all six `gst_rtp_buffer_add_extension_onebyte_header` calls
pass the literal ID 1, so the first packet of a concrete frame carries the
extension IDs [1, 1, 1, 1, 1, 1], not [1, 2, 3, 4, 5, 6]. -/
theorem C1_extension_ids_counterexample :
    (((processHandoffs StreamState.init (frameEvents 100 200 300 400 [500])).2.getD 3 []).map
        RtpExt.id) = [1, 1, 1, 1, 1, 1] ∧
    (((processHandoffs StreamState.init (frameEvents 100 200 300 400 [500])).2.getD 3 []).map
        RtpExt.id) ≠ [1, 2, 3, 4, 5, 6] := by
  exact ⟨rfl, by decide⟩

/-- C1 witness: a concrete frame with handoff times 100, 200, 300, 400 and
two further packets of the same frame: the first packet carries the six
ID-1 extensions with the computed values, the later packets carry none. -/
theorem C1_first_packet_extensions_amended_witness :
    (processHandoffs StreamState.init (frameEvents 100 200 300 400 [500, 600])).2 =
      [[], [], [],
       [⟨1, 8, 0⟩, ⟨1, 8, 0⟩, ⟨1, 8, 100⟩, ⟨1, 8, 100⟩, ⟨1, 8, 100⟩, ⟨1, 8, 400⟩],
       [], []] := by
  obtain ⟨exts, h1, h2, _, _⟩ :=
    C1_first_packet_extensions_amended StreamState.init 100 200 300 400 [500, 600] (Or.inr rfl)
  rw [h1, h2]
  rfl

/-- Helper: a single sample exchange only touches the failure counter and
the health flag. -/
theorem GetOneNtpSample_preserves (st : NtpState) (raw : Option (Nat × Nat × Nat × Nat)) :
    (GetOneNtpSample st raw).1.smoothedOffsetUs = st.smoothedOffsetUs ∧
    (GetOneNtpSample st raw).1.hasInitialOffset = st.hasInitialOffset ∧
    (GetOneNtpSample st raw).1.usingFallback = st.usingFallback ∧
    (GetOneNtpSample st raw).1.fallbackServerAddress = st.fallbackServerAddress ∧
    (GetOneNtpSample st raw).1.ntpServerAddress = st.ntpServerAddress := by
  match raw with
  | none => exact ⟨rfl, rfl, rfl, rfl, rfl⟩
  | some (t1, t2, t3, t4) =>
    simp only [GetOneNtpSample]
    split <;> exact ⟨rfl, rfl, rfl, rfl, rfl⟩

/-- Helper: the sampling loop only touches the failure counter and the
health flag. -/
theorem sampleLoop_preserves (st : NtpState) (raws : List (Option (Nat × Nat × Nat × Nat))) :
    (sampleLoop st raws).1.smoothedOffsetUs = st.smoothedOffsetUs ∧
    (sampleLoop st raws).1.hasInitialOffset = st.hasInitialOffset ∧
    (sampleLoop st raws).1.usingFallback = st.usingFallback ∧
    (sampleLoop st raws).1.fallbackServerAddress = st.fallbackServerAddress ∧
    (sampleLoop st raws).1.ntpServerAddress = st.ntpServerAddress := by
  induction raws generalizing st with
  | nil => exact ⟨rfl, rfl, rfl, rfl, rfl⟩
  | cons raw rest ih =>
    have hstep := GetOneNtpSample_preserves st raw
    have hrest := ih (GetOneNtpSample st raw).1
    simp only [sampleLoop]
    cases hg : GetOneNtpSample st raw with
    | mk st1 sOpt =>
      rw [hg] at hstep hrest
      cases sOpt <;> simp_all

/-- Helper: an accepted sample has round trip at most 20 000 µs. -/
theorem GetOneNtpSample_rtt_le (st : NtpState) (raw : Option (Nat × Nat × Nat × Nat))
    (st1 : NtpState) (s : NtpSample) (h : GetOneNtpSample st raw = (st1, some s)) :
    s.rtt ≤ 20000 := by
  match raw with
  | none => simp [GetOneNtpSample] at h
  | some (t1, t2, t3, t4) =>
    simp only [GetOneNtpSample] at h
    split at h
    · simp at h
    · rename_i hdelay
      obtain ⟨-, hs⟩ := Prod.mk.injEq .. ▸ h
      cases hs
      exact Nat.le_of_not_lt hdelay

/-- Helper: every sample collected by the sampling loop has round trip at
most 20 000 µs. -/
theorem sampleLoop_rtt_le (st : NtpState) (raws : List (Option (Nat × Nat × Nat × Nat))) :
    ∀ s ∈ (sampleLoop st raws).2, s.rtt ≤ 20000 := by
  induction raws generalizing st with
  | nil => intro s hs; simp [sampleLoop] at hs
  | cons raw rest ih =>
    intro s hs
    simp only [sampleLoop] at hs
    cases hg : GetOneNtpSample st raw with
    | mk st1 sOpt =>
      rw [hg] at hs
      cases sOpt with
      | none =>
        simp only at hs
        exact ih st1 s (by simpa using hs)
      | some sample =>
        simp only at hs
        rcases List.mem_cons.mp (by simpa using hs) with h | h
        · subst h
          exact GetOneNtpSample_rtt_le st raw st1 s hg
        · exact ih st1 s h

/-- Helper: the linear minimum scan returns a member of minimal round trip
(first minimum wins, matching the strict `<` comparison of the source). -/
theorem chooseBest_spec (b : NtpSample) (l : List NtpSample) :
    chooseBest b l ∈ b :: l ∧ ∀ s ∈ b :: l, (chooseBest b l).rtt ≤ s.rtt := by
  induction l generalizing b with
  | nil =>
    refine ⟨List.mem_singleton.mpr rfl, ?_⟩
    intro s hs
    rw [List.mem_singleton.mp hs]
    exact Nat.le_refl _
  | cons a l ih =>
    have hb' := ih (if a.rtt < b.rtt then a else b)
    have hcb : chooseBest b (a :: l) = chooseBest (if a.rtt < b.rtt then a else b) l := rfl
    have hble : (if a.rtt < b.rtt then a else b).rtt ≤ b.rtt := by
      by_cases hc : a.rtt < b.rtt <;> simp [hc] <;> omega
    have hale : (if a.rtt < b.rtt then a else b).rtt ≤ a.rtt := by
      by_cases hc : a.rtt < b.rtt <;> simp [hc] <;> omega
    have hheadle : (chooseBest (if a.rtt < b.rtt then a else b) l).rtt ≤
        (if a.rtt < b.rtt then a else b).rtt := hb'.2 _ (List.mem_cons_self _ l)
    constructor
    · rw [hcb]
      by_cases hc : a.rtt < b.rtt
      · rw [if_pos hc]
        exact List.mem_cons_of_mem b (ih a).1
      · rw [if_neg hc]
        rcases List.mem_cons.mp (ih b).1 with h | h
        · rw [h]
          exact List.mem_cons_self b (a :: l)
        · exact List.mem_cons_of_mem b (List.mem_cons_of_mem a h)
    · intro s hs
      rw [hcb]
      rcases List.mem_cons.mp hs with h | h
      · subst h
        exact le_trans hheadle hble
      · rcases List.mem_cons.mp h with h2 | h2
        · subst h2
          exact le_trans hheadle hale
        · exact hb'.2 s (List.mem_cons.mpr (Or.inr h2))

/-- C4: in every sync cycle, any sample whose round trip exceeds 20 000 µs
is rejected (every accepted sample has round trip ≤ 20 000 µs); among the
accepted samples the one with the smallest round trip is chosen (first
minimum wins); and if the offset has never been set it is assigned the
chosen offset, otherwise it is assigned 0.1·chosen + 0.9·previous. -/
theorem C4_ntp_sync_cycle :
    (∀ (st : NtpState) (raw : Option (Nat × Nat × Nat × Nat)) (st1 : NtpState) (s : NtpSample),
      GetOneNtpSample st raw = (st1, some s) → s.rtt ≤ 20000) ∧
    (∀ (st : NtpState) (raws : List (Option (Nat × Nat × Nat × Nat))),
      ∀ s ∈ (sampleLoop st raws).2, s.rtt ≤ 20000) ∧
    (∀ (st : NtpState) (raws : List (Option (Nat × Nat × Nat × Nat))) (hd : NtpSample)
        (tl : List NtpSample), (sampleLoop st raws).2 = hd :: tl →
      (chooseBest hd tl ∈ hd :: tl ∧ ∀ s ∈ hd :: tl, (chooseBest hd tl).rtt ≤ s.rtt) ∧
      (st.hasInitialOffset = false →
        (SyncWithServer st raws).smoothedOffsetUs = ((chooseBest hd tl).offset : ℚ) ∧
        (SyncWithServer st raws).hasInitialOffset = true) ∧
      (st.hasInitialOffset = true →
        (SyncWithServer st raws).smoothedOffsetUs =
          (1 / 10 : ℚ) * ((chooseBest hd tl).offset : ℚ) +
            (1 - 1 / 10 : ℚ) * st.smoothedOffsetUs)) := by
  refine ⟨GetOneNtpSample_rtt_le, sampleLoop_rtt_le, ?_⟩
  intro st raws hd tl hgood
  have hpres := sampleLoop_preserves st raws
  refine ⟨chooseBest_spec hd tl, ?_, ?_⟩
  · intro hinit
    have h1 : (sampleLoop st raws).1.hasInitialOffset = false := by
      rw [hpres.2.1, hinit]
    unfold SyncWithServer
    rw [hgood]
    simp [syncCycleDecision, h1]
  · intro hinit
    have h1 : (sampleLoop st raws).1.hasInitialOffset = true := by
      rw [hpres.2.1, hinit]
    unfold SyncWithServer
    rw [hgood]
    simp [syncCycleDecision, h1, hpres.1]

/-- C4 witness: a cycle with one accepted raw measurement (offset 800 µs,
round trip 400 µs ≤ 20 000) and two failed exchanges, starting with no
initial offset: the smoothed offset becomes 800. -/
theorem C4_ntp_sync_cycle_witness :
    ((sampleLoop (NtpState.init "10.0.31.42" "pool.ntp.org")
        [some (1000, 2000, 2100, 1500), none, none]).2 = [⟨800, 400⟩]) ∧
    (SyncWithServer (NtpState.init "10.0.31.42" "pool.ntp.org")
        [some (1000, 2000, 2100, 1500), none, none]).smoothedOffsetUs = (800 : ℚ) ∧
    (400 : Nat) ≤ 20000 := by
  have hgood : (sampleLoop (NtpState.init "10.0.31.42" "pool.ntp.org")
      [some (1000, 2000, 2100, 1500), none, none]).2 = [⟨800, 400⟩] := by rfl
  refine ⟨hgood, ?_, ?_⟩
  · exact ((C4_ntp_sync_cycle.2.2 (NtpState.init "10.0.31.42" "pool.ntp.org")
      [some (1000, 2000, 2100, 1500), none, none] ⟨800, 400⟩ [] hgood).2.1 rfl).1
  · exact C4_ntp_sync_cycle.2.1 (NtpState.init "10.0.31.42" "pool.ntp.org")
      [some (1000, 2000, 2100, 1500), none, none] ⟨800, 400⟩ (hgood ▸ List.mem_singleton.mpr rfl)

/-- Helper: when the cycle produced no good sample, the counter has reached
the threshold, the fallback is configured and not yet in use, the cycle
switches to the fallback server and resets the counter. -/
theorem syncCycleDecision_switch (st1 : NtpState)
    (h2 : st1.usingFallback = false)
    (h3 : FALLBACK_THRESHOLD ≤ st1.consecutiveSyncFailures)
    (h4 : st1.fallbackServerAddress ≠ "") :
    syncCycleDecision st1 [] =
      { st1 with ntpServerAddress := st1.fallbackServerAddress,
                 usingFallback := true,
                 consecutiveSyncFailures := 0 } := by
  simp [syncCycleDecision, h2, h3, h4]

/-- Helper: when the switch condition does not hold, the cycle leaves the
fallback flag unchanged. -/
theorem syncCycleDecision_noswitch (st1 : NtpState) (good : List NtpSample)
    (hC : ¬ (good.isEmpty ∧ ¬ st1.usingFallback ∧
      FALLBACK_THRESHOLD ≤ st1.consecutiveSyncFailures ∧
      st1.fallbackServerAddress ≠ "")) :
    (syncCycleDecision st1 good).usingFallback = st1.usingFallback := by
  unfold syncCycleDecision
  rw [if_neg hC]
  cases good with
  | nil => rfl
  | cons s rest =>
    by_cases hi : st1.hasInitialOffset <;> simp [hi]

/-- Helper: one sample exchange increments the failure counter by at most
one. -/
theorem GetOneNtpSample_failures_le (st : NtpState) (raw : Option (Nat × Nat × Nat × Nat)) :
    (GetOneNtpSample st raw).1.consecutiveSyncFailures ≤ st.consecutiveSyncFailures + 1 := by
  match raw with
  | none => exact Nat.le_refl _
  | some (t1, t2, t3, t4) =>
    simp only [GetOneNtpSample]
    split
    · exact Nat.le_succ _
    · exact Nat.zero_le _

/-- Helper: the first component of one sampling step. -/
theorem sampleLoop_fst_cons (st : NtpState) (raw : Option (Nat × Nat × Nat × Nat))
    (rest : List (Option (Nat × Nat × Nat × Nat))) :
    (sampleLoop st (raw :: rest)).1 = (sampleLoop (GetOneNtpSample st raw).1 rest).1 := by
  simp only [sampleLoop]
  cases hg : GetOneNtpSample st raw with
  | mk st1 sOpt => cases sOpt <;> simp

/-- Helper: a cycle of n sample exchanges grows the failure counter by at
most n (in the source n = 3, so the threshold of 5 is first reachable at
the end of the second consecutive fully-failing cycle). -/
theorem sampleLoop_failures_le (st : NtpState) (raws : List (Option (Nat × Nat × Nat × Nat))) :
    (sampleLoop st raws).1.consecutiveSyncFailures ≤
      st.consecutiveSyncFailures + raws.length := by
  induction raws generalizing st with
  | nil => exact Nat.le_refl _
  | cons raw rest ih =>
    rw [sampleLoop_fst_cons]
    calc (sampleLoop (GetOneNtpSample st raw).1 rest).1.consecutiveSyncFailures
        ≤ (GetOneNtpSample st raw).1.consecutiveSyncFailures + rest.length :=
          ih (GetOneNtpSample st raw).1
      _ ≤ st.consecutiveSyncFailures + 1 + rest.length :=
          Nat.add_le_add_right (GetOneNtpSample_failures_le st raw) _
      _ = st.consecutiveSyncFailures + (raw :: rest).length := by
          simp [Nat.add_assoc, Nat.add_comm 1]

/-- C5 counterexample: the claim says the fallback is engaged only after
exactly 5 consecutive failing sync cycles and never before.  The counter
`consecutiveSyncFailures_` is incremented once per failed sample exchange
(up to 3 per cycle), not per cycle: with every exchange failing, the first
cycle reaches 3 failures (no switch), and already the second consecutive
failing cycle reaches 6 ≥ 5 and switches, resetting the counter — after 2
failing cycles, not 5. -/
theorem C5_fallback_counterexample :
    ((SyncWithServer (NtpState.init "10.0.31.42" "pool.ntp.org")
        [none, none, none]).usingFallback = false) ∧
    ((SyncWithServer (NtpState.init "10.0.31.42" "pool.ntp.org")
        [none, none, none]).consecutiveSyncFailures = 3) ∧
    ((SyncWithServer (SyncWithServer (NtpState.init "10.0.31.42" "pool.ntp.org")
        [none, none, none]) [none, none, none]).usingFallback = true) ∧
    ((SyncWithServer (SyncWithServer (NtpState.init "10.0.31.42" "pool.ntp.org")
        [none, none, none]) [none, none, none]).consecutiveSyncFailures = 0) := by
  exact ⟨rfl, rfl, rfl, rfl⟩

/-- C5 (amended): the synchronizer switches to the fallback server exactly
when a sync cycle produces no accepted sample while the consecutive
failed-sample counter (incremented once per failed exchange, so by at most
3 per cycle, and reset on any accepted sample) has reached 5 and a fallback
is configured and not already in use; on switching, the server becomes the
fallback and the counter is reset to 0.  The counter grows by at most the
number of exchanges per cycle, so with fully-failing 3-sample cycles the
switch happens at the end of the second consecutive failing cycle. -/
theorem C5_fallback_amended :
    ∀ (st : NtpState) (raws : List (Option (Nat × Nat × Nat × Nat))),
      ((SyncWithServer st raws).usingFallback = true ↔
        (st.usingFallback = true ∨
          ((sampleLoop st raws).2 = [] ∧
           FALLBACK_THRESHOLD ≤ (sampleLoop st raws).1.consecutiveSyncFailures ∧
           st.fallbackServerAddress ≠ ""))) ∧
      (st.usingFallback = false → (SyncWithServer st raws).usingFallback = true →
        (SyncWithServer st raws).consecutiveSyncFailures = 0 ∧
        (SyncWithServer st raws).ntpServerAddress = st.fallbackServerAddress ∧
        (sampleLoop st raws).2 = [] ∧
        FALLBACK_THRESHOLD ≤ (sampleLoop st raws).1.consecutiveSyncFailures) ∧
      ((sampleLoop st raws).1.consecutiveSyncFailures ≤
        st.consecutiveSyncFailures + raws.length) := by
  intro st raws
  have hpres := sampleLoop_preserves st raws
  have hub : (sampleLoop st raws).1.usingFallback = st.usingFallback := hpres.2.2.1
  have hfb : (sampleLoop st raws).1.fallbackServerAddress = st.fallbackServerAddress :=
    hpres.2.2.2.1
  have hiff : (SyncWithServer st raws).usingFallback = true ↔
      (st.usingFallback = true ∨
        ((sampleLoop st raws).2 = [] ∧
         FALLBACK_THRESHOLD ≤ (sampleLoop st raws).1.consecutiveSyncFailures ∧
         st.fallbackServerAddress ≠ "")) := by
    by_cases hC : ((sampleLoop st raws).2.isEmpty ∧ ¬ (sampleLoop st raws).1.usingFallback ∧
        FALLBACK_THRESHOLD ≤ (sampleLoop st raws).1.consecutiveSyncFailures ∧
        (sampleLoop st raws).1.fallbackServerAddress ≠ "")
    · have hge : (sampleLoop st raws).2 = [] := by
        have h1 := hC.1
        cases hl : (sampleLoop st raws).2 with
        | nil => rfl
        | cons a l => rw [hl] at h1; simp at h1
      have hval := syncCycleDecision_switch (sampleLoop st raws).1
        (by simpa using hC.2.1) hC.2.2.1 hC.2.2.2
      refine ⟨fun _ => Or.inr ⟨hge, hC.2.2.1, by rw [← hfb]; exact hC.2.2.2⟩, fun _ => ?_⟩
      unfold SyncWithServer
      rw [hge, hval]
    · have hnos := syncCycleDecision_noswitch (sampleLoop st raws).1 (sampleLoop st raws).2 hC
      have hsw : (SyncWithServer st raws).usingFallback = st.usingFallback := by
        unfold SyncWithServer
        rw [hnos, hub]
      rw [hsw]
      refine ⟨Or.inl, fun h => ?_⟩
      rcases h with h | ⟨hge, hthr, hne⟩
      · exact h
      · by_cases hu : st.usingFallback = true
        · exact hu
        · exfalso
          apply hC
          refine ⟨by simp [hge], by rw [hub]; exact hu, hthr, by rw [hfb]; exact hne⟩
  refine ⟨hiff, ?_, sampleLoop_failures_le st raws⟩
  intro hu0 hsw1
  rcases hiff.mp hsw1 with h | ⟨hge, hthr, hne⟩
  · rw [hu0] at h
    exact absurd h (by simp)
  · have hval := syncCycleDecision_switch (sampleLoop st raws).1
      (by rw [hub]; exact hu0) hthr (by rw [hfb]; exact hne)
    have hrun : SyncWithServer st raws =
        { (sampleLoop st raws).1 with
          ntpServerAddress := (sampleLoop st raws).1.fallbackServerAddress,
          usingFallback := true,
          consecutiveSyncFailures := 0 } := by
      unfold SyncWithServer
      rw [hge, hval]
    rw [hrun]
    exact ⟨rfl, hfb, hge, hthr⟩

/-- C5 witness: starting from the state reached after one fully-failing
cycle (counter 3, fallback not in use), a second fully-failing cycle
switches to the fallback server and resets the counter. -/
theorem C5_fallback_amended_witness :
    (SyncWithServer (SyncWithServer (NtpState.init "10.0.31.42" "pool.ntp.org")
        [none, none, none]) [none, none, none]).consecutiveSyncFailures = 0 ∧
    (SyncWithServer (SyncWithServer (NtpState.init "10.0.31.42" "pool.ntp.org")
        [none, none, none]) [none, none, none]).ntpServerAddress = "pool.ntp.org" := by
  have h := (C5_fallback_amended
    (SyncWithServer (NtpState.init "10.0.31.42" "pool.ntp.org") [none, none, none])
    [none, none, none]).2.1 rfl rfl
  exact ⟨h.1, h.2.1⟩
